import Mathlib

/-!
Verification development for the rustboy Game Boy emulator core.

The definitions below are a shallow embedding of `src/gpu.rs` and
`src/emulator.rs`.  Machine integers (`u8`, `u16`, `usize`) are embedded as
`Nat`; wrapping arithmetic is written with an explicit `% 256`, and byte
array cells are read modulo 256 (the cell type is `u8`).  Fallible
operations (indexing that can panic, subtraction that can underflow) return
`Option`.
-/

namespace Rustboy

/-! ## Constants (top of `src/gpu.rs`) -/

def VRAM_SIZE : Nat := 0x2000
def OAM_SIZE : Nat := 0xA0

def HORIZONTAL_BLANK_CYCLES : Nat := 204
def VERTICAL_BLANK_CYCLES : Nat := 4560
def OAM_SCAN_CYCLES : Nat := 80
def DRAW_PIXEL_CYCLES : Nat := 172

def LAST_LINE_TO_DRAW : Nat := 143

def SCREEN_WIDTH : Nat := 160
def SCREEN_HEIGHT : Nat := 144

def TILE_ROW_SIZE_IN_PIXEL : Nat := 8
def TILE_SIZE_IN_BYTES : Nat := 16
def TILE_MAP_SIZE : Nat := 32

def BYTES_PER_TILE_ROM : Nat := 2

/-! ## Data model (`src/gpu.rs`) -/

/-- `PixelColor` enum; `val` is the discriminant used by `as u8` casts. -/
inductive PixelColor
  | WHITE
  | LIGHT_GRAY
  | DARK_GRAY
  | BLACK
deriving DecidableEq

def PixelColor.val : PixelColor → Nat
  | .WHITE => 255
  | .LIGHT_GRAY => 192
  | .DARK_GRAY => 96
  | .BLACK => 0

/-- `Palette(PixelColor, PixelColor, PixelColor, PixelColor)`. -/
structure Palette where
  p0 : PixelColor
  p1 : PixelColor
  p2 : PixelColor
  p3 : PixelColor
deriving DecidableEq

def Palette.new : Palette :=
  ⟨PixelColor.WHITE, PixelColor.LIGHT_GRAY, PixelColor.DARK_GRAY, PixelColor.BLACK⟩

/-- `TileMapArea`; `val` is the VRAM base offset discriminant. -/
inductive TileMapArea
  | X9800
  | X9C00
deriving DecidableEq

def TileMapArea.val : TileMapArea → Nat
  | .X9800 => 0x1800
  | .X9C00 => 0x1C00

inductive ObjectSize
  | OS8X8
  | OS8X16
deriving DecidableEq

inductive Mode
  | HorizontalBlank
  | VerticalBlank
  | OAMScan
  | DrawPixel
deriving DecidableEq

inductive GpuInterruptRequest
  | None
  | VBlank
  | LCDStat
  | Both
deriving DecidableEq

/-- `GpuInterruptRequest::add(&mut self, other)`: the post value of `self`.
The source matches on `self` with guards on `other`; every unmatched pair
falls into `_ => {}` and leaves `self` unchanged. -/
def GpuInterruptRequest.add : GpuInterruptRequest → GpuInterruptRequest → GpuInterruptRequest
  | .None, other => other
  | .VBlank, .LCDStat => .Both
  | .LCDStat, .VBlank => .Both
  | s, _ => s

/-- The `Gpu` struct.  The byte arrays `vram`, `oam` and `frame_buffer` are
embedded as functions from index to stored value; reads of `u8` cells are
taken `% 256`. -/
structure Gpu where
  vram : Nat → Nat
  oam : Nat → Nat
  lcd_display_enabled : Bool
  window_tile_map : TileMapArea
  window_display_enabled : Bool
  background_tile_data_area : Bool
  background_tile_map_area : TileMapArea
  object_size : ObjectSize
  object_display_enabled : Bool
  background_display_enabled : Bool
  line_compare_it_enable : Bool
  oam_interrupt_enabled : Bool
  vblank_interrupt_enabled : Bool
  hblank_interrupt_enabled : Bool
  line_compare_state : Bool
  mode : Mode
  viewport_y_offset : Nat
  viewport_x_offset : Nat
  current_line : Nat
  compare_line : Nat
  background_palette : Palette
  object_palette_0 : Palette
  object_palette_1 : Palette
  window_x_offset : Nat
  window_y_offset : Nat
  cycles : Nat
  frame_buffer : Nat → Nat

/-- `Gpu::new()`. -/
def Gpu.new : Gpu where
  vram := fun _ => 0x00
  oam := fun _ => 0
  lcd_display_enabled := false
  window_tile_map := TileMapArea.X9800
  window_display_enabled := false
  background_tile_data_area := false
  background_tile_map_area := TileMapArea.X9800
  object_size := ObjectSize.OS8X8
  object_display_enabled := false
  background_display_enabled := false
  line_compare_it_enable := false
  oam_interrupt_enabled := false
  vblank_interrupt_enabled := false
  hblank_interrupt_enabled := false
  line_compare_state := false
  mode := Mode.HorizontalBlank
  viewport_y_offset := 0
  viewport_x_offset := 0
  current_line := 0
  compare_line := 0
  background_palette := Palette.new
  object_palette_0 := Palette.new
  object_palette_1 := Palette.new
  window_x_offset := 0
  window_y_offset := 0
  cycles := 0
  frame_buffer := fun _ => 0

/-- `Gpu::read_vram`: `self.vram[address as usize]`.  The cell type is `u8`,
so the value read is below 256. -/
def Gpu.read_vram (g : Gpu) (address : Nat) : Nat :=
  g.vram address % 256

/-- `Gpu::write_vram`: `self.vram[address as usize] = data`. -/
def Gpu.write_vram (g : Gpu) (address : Nat) (data : Nat) : Gpu :=
  { g with vram := Function.update g.vram address data }

/-- `Gpu::get_bg_pixel_color_from_palette`: each arm is `as u8` on a
palette slot. -/
def Gpu.get_bg_pixel_color_from_palette (g : Gpu) (pixel_value : Nat) : Nat :=
  match pixel_value with
  | 0 => g.background_palette.p0.val
  | 1 => g.background_palette.p1.val
  | 2 => g.background_palette.p2.val
  | 3 => g.background_palette.p3.val
  | _ => g.background_palette.p0.val

/-- `Gpu::get_tile_data`: returns `(data_1, data_0)`.  All three branches
read two consecutive VRAM bytes; the `$8800` branch adds the `0x1000` base
exactly when `tile_mem_addr + tile_row_offset < 0x0800`. -/
def Gpu.get_tile_data (g : Gpu) (tile_mem_addr tile_row_offset : Nat) : Nat × Nat :=
  if g.background_tile_data_area then
    (g.read_vram (tile_mem_addr + tile_row_offset + 1),
     g.read_vram (tile_mem_addr + tile_row_offset))
  else
    if tile_mem_addr + tile_row_offset < 0x0800 then
      (g.read_vram (0x1000 + tile_mem_addr + tile_row_offset + 1),
       g.read_vram (0x1000 + tile_mem_addr + tile_row_offset))
    else
      (g.read_vram (tile_mem_addr + tile_row_offset + 1),
       g.read_vram (tile_mem_addr + tile_row_offset))

/-- The 2-bit pixel value `v` decoded by the body of the
`for pixel_x_index in 0..SCREEN_WIDTH` loop of `Gpu::draw_line` for column
`pixel_x_index` of row `pixel_y_index`.  The loop mutates only
`frame_buffer`, which this computation never reads, so it is evaluated on
the pre-loop state `g`.  `wrapping_add` on `u8` is `% 256`. -/
def Gpu.bg_pixel_value (g : Gpu) (pixel_y_index pixel_x_index : Nat) : Nat :=
  let tile_map_y_index := (pixel_y_index + g.viewport_y_offset) % 256 / TILE_ROW_SIZE_IN_PIXEL
  let tile_map_x_index := (pixel_x_index + g.viewport_x_offset) % 256 / TILE_ROW_SIZE_IN_PIXEL
  let tile_map_index := tile_map_y_index * TILE_MAP_SIZE + tile_map_x_index
  let tile_mem_index := g.read_vram (g.background_tile_map_area.val + tile_map_index)
  let tile_mem_addr := tile_mem_index * TILE_SIZE_IN_BYTES
  let tile_row_offset := (pixel_y_index + g.viewport_y_offset) % 256 % TILE_ROW_SIZE_IN_PIXEL * BYTES_PER_TILE_ROM
  let td := g.get_tile_data tile_mem_addr tile_row_offset
  let bit_0 := td.2 >>> (7 - (pixel_x_index + g.viewport_x_offset) % 256 % TILE_ROW_SIZE_IN_PIXEL) &&& 0x01
  let bit_1 := td.1 >>> (7 - (pixel_x_index + g.viewport_x_offset) % 256 % TILE_ROW_SIZE_IN_PIXEL) &&& 0x01
  bit_1 <<< 1 ||| bit_0

/-- The color written at column `pixel_x_index` of row `pixel_y_index`:
the palette lookup of the decoded 2-bit pixel value. -/
def Gpu.draw_line_pixel (g : Gpu) (pixel_y_index pixel_x_index : Nat) : Nat :=
  g.get_bg_pixel_color_from_palette (g.bg_pixel_value pixel_y_index pixel_x_index)

/-- The first `n` iterations (`pixel_x_index = 0, …, n-1`) of the
`draw_line` loop.  Each iteration panics (hence `none`) when the
`frame_buffer` index is out of bounds. -/
def Gpu.draw_line_loop (g : Gpu) (pixel_y_index : Nat) : Nat → Option Gpu
  | 0 => some g
  | n + 1 =>
    match g.draw_line_loop pixel_y_index n with
    | none => none
    | some acc =>
      if pixel_y_index * SCREEN_WIDTH + n < SCREEN_WIDTH * SCREEN_HEIGHT then
        let fb := Function.update acc.frame_buffer (pixel_y_index * SCREEN_WIDTH + n) (g.draw_line_pixel pixel_y_index n)
        some { acc with frame_buffer := fb }
      else
        none

/-- `Gpu::draw_line`.  With the background enabled,
`let pixel_y_index: u8 = self.current_line - 1` panics on underflow when
`current_line == 0` (hence `none`); otherwise the loop runs over the 160
columns. -/
def Gpu.draw_line (g : Gpu) : Option Gpu :=
  if g.background_display_enabled then
    if g.current_line = 0 then
      none
    else
      g.draw_line_loop (g.current_line - 1) SCREEN_WIDTH
  else
    some g

/-- `Gpu::run(&mut self, cycles: u8)`.  `self.cycles += cycles as u16`
panics on `u16` overflow (hence the `65536` guard); each mode arm tests its
cycle budget once and performs at most one transition, reducing the counter
with `%`. -/
def Gpu.run (g : Gpu) (cycles : Nat) : Option Gpu :=
  let cy := g.cycles + cycles
  if 65536 ≤ cy then
    none
  else
    match g.mode with
    | Mode.HorizontalBlank =>
      if HORIZONTAL_BLANK_CYCLES ≤ cy then
        if g.current_line < LAST_LINE_TO_DRAW then
          some { g with cycles := cy % HORIZONTAL_BLANK_CYCLES,
                        current_line := g.current_line + 1,
                        mode := Mode.OAMScan }
        else
          some { g with cycles := cy % HORIZONTAL_BLANK_CYCLES,
                        mode := Mode.VerticalBlank }
      else
        some { g with cycles := cy }
    | Mode.VerticalBlank =>
      if VERTICAL_BLANK_CYCLES ≤ cy then
        some { g with cycles := cy % VERTICAL_BLANK_CYCLES,
                      current_line := 1,
                      mode := Mode.OAMScan }
      else
        some { g with cycles := cy }
    | Mode.OAMScan =>
      if OAM_SCAN_CYCLES ≤ cy then
        some { g with cycles := cy % OAM_SCAN_CYCLES,
                      mode := Mode.DrawPixel }
      else
        some { g with cycles := cy }
    | Mode.DrawPixel =>
      if DRAW_PIXEL_CYCLES ≤ cy then
        match Gpu.draw_line { g with cycles := cy % DRAW_PIXEL_CYCLES } with
        | some g' => some { g' with mode := Mode.HorizontalBlank }
        | none => none
      else
        some { g with cycles := cy }

/-- Folding `Gpu::run` over a list of per-call cycle increments. -/
def Gpu.runList (g : Gpu) (cs : List Nat) : Option Gpu :=
  match cs with
  | [] => some g
  | c :: rest =>
    match g.run c with
    | some g' => g'.runList rest
    | none => none

/-- Per-mode cycle budget, at which `Gpu::run` leaves the mode. -/
def Mode.budget : Mode → Nat
  | Mode.HorizontalBlank => HORIZONTAL_BLANK_CYCLES
  | Mode.VerticalBlank => VERTICAL_BLANK_CYCLES
  | Mode.OAMScan => OAM_SCAN_CYCLES
  | Mode.DrawPixel => DRAW_PIXEL_CYCLES

/-! ## Helper lemmas on `draw_line` -/

/-- The frame buffer after the first `n` loop iterations of `draw_line` on
row `py`: columns `0..n-1` of row `py` repainted, all else unchanged. -/
def Gpu.rowPaint (g : Gpu) (py n : Nat) : Nat → Nat :=
  fun i => if py * 160 ≤ i ∧ i < py * 160 + n then g.draw_line_pixel py (i - py * 160) else g.frame_buffer i

lemma Gpu.draw_line_loop_zero (g : Gpu) (py : Nat) : g.draw_line_loop py 0 = some g := rfl

lemma Gpu.draw_line_loop_succ (g : Gpu) (py n : Nat) :
    g.draw_line_loop py (n + 1) = match g.draw_line_loop py n with | none => none | some acc => if py * SCREEN_WIDTH + n < SCREEN_WIDTH * SCREEN_HEIGHT then some { acc with frame_buffer := Function.update acc.frame_buffer (py * SCREEN_WIDTH + n) (g.draw_line_pixel py n) } else none := by
  rw [Gpu.draw_line_loop]

lemma Gpu.draw_line_loop_core (g : Gpu) (py : Nat) :
    ∀ n acc, g.draw_line_loop py n = some acc →
      acc.mode = g.mode ∧ acc.current_line = g.current_line ∧ acc.cycles = g.cycles := by
  intro n
  induction n with
  | zero =>
    intro acc h
    rw [Gpu.draw_line_loop_zero] at h
    cases h
    exact ⟨rfl, rfl, rfl⟩
  | succ n ih =>
    intro acc h
    rw [Gpu.draw_line_loop_succ] at h
    rcases hn : g.draw_line_loop py n with _ | a
    · rw [hn] at h
      cases h
    · rw [hn] at h
      simp only at h
      split at h
      · cases h
        exact ih a hn
      · cases h

lemma Gpu.draw_line_loop_eq (g : Gpu) (py : Nat) (hpy : py < 144) :
    ∀ n, n ≤ 160 → g.draw_line_loop py n = some { g with frame_buffer := g.rowPaint py n } := by
  intro n
  induction n with
  | zero =>
    intro _
    rw [Gpu.draw_line_loop_zero]
    have hf : g.rowPaint py 0 = g.frame_buffer := by
      funext i
      rw [Gpu.rowPaint, if_neg (by omega)]
    rw [hf]
  | succ n ih =>
    intro hn
    have hlt : py * SCREEN_WIDTH + n < SCREEN_WIDTH * SCREEN_HEIGHT := by
      simp only [SCREEN_WIDTH, SCREEN_HEIGHT]
      omega
    rw [Gpu.draw_line_loop_succ, ih (by omega)]
    simp only [if_pos hlt]
    have hf : Function.update (g.rowPaint py n) (py * SCREEN_WIDTH + n) (g.draw_line_pixel py n) = g.rowPaint py (n + 1) := by
      funext i
      rw [Function.update_apply]
      simp only [Gpu.rowPaint, SCREEN_WIDTH]
      by_cases hi : i = py * 160 + n
      · subst hi
        rw [if_pos rfl, if_pos (by omega)]
        congr 1
        omega
      · rw [if_neg hi]
        by_cases hrange : py * 160 ≤ i ∧ i < py * 160 + n
        · rw [if_pos hrange, if_pos (by omega)]
        · rw [if_neg hrange, if_neg (by omega)]
    rw [hf]

lemma Gpu.draw_line_eq (g : Gpu) (hbg : g.background_display_enabled = true)
    (h1 : 1 ≤ g.current_line) (h2 : g.current_line ≤ 144) :
    g.draw_line = some { g with frame_buffer := g.rowPaint (g.current_line - 1) 160 } := by
  rw [Gpu.draw_line, if_pos hbg, if_neg (by omega)]
  exact g.draw_line_loop_eq (g.current_line - 1) (by omega) SCREEN_WIDTH (by simp [SCREEN_WIDTH])

lemma Gpu.draw_line_loop_none (g : Gpu) (py : Nat) (hpy : 144 ≤ py) :
    ∀ n, 1 ≤ n → g.draw_line_loop py n = none := by
  intro n
  induction n with
  | zero => omega
  | succ n ih =>
    intro _
    rw [Gpu.draw_line_loop_succ]
    by_cases hn : 1 ≤ n
    · rw [ih hn]
    · have hn0 : n = 0 := by omega
      subst hn0
      rw [Gpu.draw_line_loop_zero]
      simp only
      rw [if_neg (by simp only [SCREEN_WIDTH, SCREEN_HEIGHT]; omega)]

lemma Gpu.draw_line_isSome_iff (g : Gpu) (hbg : g.background_display_enabled = true) :
    (g.draw_line).isSome = true ↔ (1 ≤ g.current_line ∧ g.current_line ≤ 144) := by
  constructor
  · intro h
    by_contra hc
    rcases Nat.lt_or_ge g.current_line 1 with h0 | h1
    · have hz : g.current_line = 0 := by omega
      rw [Gpu.draw_line, if_pos hbg, if_pos hz] at h
      cases h
    · have h145 : 145 ≤ g.current_line := by omega
      rw [Gpu.draw_line, if_pos hbg, if_neg (by omega),
        g.draw_line_loop_none (g.current_line - 1) (by omega) SCREEN_WIDTH (by simp [SCREEN_WIDTH])] at h
      cases h
  · intro h
    rw [g.draw_line_eq hbg h.1 h.2]
    rfl

lemma Gpu.draw_line_core (g g' : Gpu) (h : g.draw_line = some g') :
    g'.mode = g.mode ∧ g'.current_line = g.current_line ∧ g'.cycles = g.cycles := by
  rw [Gpu.draw_line] at h
  split at h
  · split at h
    · cases h
    · exact g.draw_line_loop_core (g.current_line - 1) SCREEN_WIDTH g' h
  · cases h
    exact ⟨rfl, rfl, rfl⟩

/-! ## Helper lemmas on `Gpu::run` -/

lemma Mode.budget_le (m : Mode) : m.budget ≤ 4560 := by
  cases m <;> simp [Mode.budget, HORIZONTAL_BLANK_CYCLES, VERTICAL_BLANK_CYCLES, OAM_SCAN_CYCLES, DRAW_PIXEL_CYCLES]

lemma Mode.budget_pos (m : Mode) : 0 < m.budget := by
  cases m <;> simp [Mode.budget, HORIZONTAL_BLANK_CYCLES, VERTICAL_BLANK_CYCLES, OAM_SCAN_CYCLES, DRAW_PIXEL_CYCLES]

lemma Gpu.run_no_transition (g : Gpu) (c : Nat) (h : g.cycles + c < g.mode.budget) :
    g.run c = some { g with cycles := g.cycles + c } := by
  have hov : ¬ 65536 ≤ g.cycles + c := by
    have := g.mode.budget_le
    omega
  simp only [Gpu.run]
  rw [if_neg hov]
  cases hm : g.mode <;> rw [hm] at h <;>
    simp only [Mode.budget, HORIZONTAL_BLANK_CYCLES, VERTICAL_BLANK_CYCLES, OAM_SCAN_CYCLES,
      DRAW_PIXEL_CYCLES] at h <;>
    dsimp only <;>
    rw [if_neg (by simp only [HORIZONTAL_BLANK_CYCLES, VERTICAL_BLANK_CYCLES, OAM_SCAN_CYCLES,
      DRAW_PIXEL_CYCLES]; omega)]

lemma Gpu.run_transition (g : Gpu) (c : Nat) (g' : Gpu) (hb : g.mode.budget ≤ g.cycles + c)
    (h : g.run c = some g') :
    g'.mode ≠ g.mode ∧ g'.cycles = (g.cycles + c) % g.mode.budget ∧ g'.cycles < g.mode.budget := by
  simp only [Gpu.run] at h
  split at h
  · cases h
  · cases hm : g.mode <;> rw [hm] at h hb <;>
      simp only [Mode.budget, HORIZONTAL_BLANK_CYCLES, VERTICAL_BLANK_CYCLES, OAM_SCAN_CYCLES,
        DRAW_PIXEL_CYCLES] at hb <;>
      dsimp only at h <;>
      rw [if_pos (by simp only [HORIZONTAL_BLANK_CYCLES, VERTICAL_BLANK_CYCLES, OAM_SCAN_CYCLES,
        DRAW_PIXEL_CYCLES]; omega)] at h
    · split at h <;> cases h <;>
        exact ⟨by simp [hm], by simp [Mode.budget, HORIZONTAL_BLANK_CYCLES],
          by simpa [HORIZONTAL_BLANK_CYCLES] using Nat.mod_lt (g.cycles + c) (y := 204) (by omega)⟩
    · cases h
      exact ⟨by simp [hm], by simp [Mode.budget, VERTICAL_BLANK_CYCLES],
        by simpa [VERTICAL_BLANK_CYCLES] using Nat.mod_lt (g.cycles + c) (y := 4560) (by omega)⟩
    · cases h
      exact ⟨by simp [hm], by simp [Mode.budget, OAM_SCAN_CYCLES],
        by simpa [OAM_SCAN_CYCLES] using Nat.mod_lt (g.cycles + c) (y := 80) (by omega)⟩
    · split at h
      next gd heq =>
        cases h
        obtain ⟨hm', hl', hc'⟩ := Gpu.draw_line_core _ _ heq
        have hcyc : gd.cycles = (g.cycles + c) % 172 := by
          simpa [DRAW_PIXEL_CYCLES] using hc'
        refine ⟨by simp [hm], ?_, ?_⟩
        · simpa [Mode.budget, DRAW_PIXEL_CYCLES] using hcyc
        · simp only [Mode.budget, DRAW_PIXEL_CYCLES]
          simp only [hcyc]
          exact Nat.mod_lt (g.cycles + c) (y := 172) (by omega)
      next heq => cases h

/-! ## Reachability and the scanline invariant -/

/-- States of the `Gpu` reachable from `Gpu::new` through calls to
`Gpu::run` (with a `u8` cycle argument).  The `regs` constructor models the
MMIO register writes performed by the bus, which may change any field of
the GPU except the mode machine core (`mode`, `current_line`, `cycles`):
the bus exposes no write path for those three (`0xFF44`/LY is read-only). -/
inductive Reachable : Gpu → Prop
  | init : Reachable Gpu.new
  | step (g g' : Gpu) (c : Nat) : Reachable g → c ≤ 255 → g.run c = some g' → Reachable g'
  | regs (g g' : Gpu) : Reachable g → g'.mode = g.mode → g'.current_line = g.current_line →
      g'.cycles = g.cycles → Reachable g'

/-- Lower bound on `current_line` in each mode (the upper bound is 143 in
every mode). -/
def Mode.lineLo : Mode → Nat
  | Mode.HorizontalBlank => 0
  | Mode.VerticalBlank => 143
  | Mode.OAMScan => 1
  | Mode.DrawPixel => 1

/-- The invariant tying `current_line` to the mode: in `VerticalBlank` the
line is exactly 143, in `OAMScan`/`DrawPixel` it is in `[1, 143]`, in
`HorizontalBlank` it is at most 143. -/
def LineInv (g : Gpu) : Prop :=
  g.mode.lineLo ≤ g.current_line ∧ g.current_line ≤ 143

lemma Gpu.new_LineInv : LineInv Gpu.new := by
  constructor <;> decide

lemma Gpu.run_preserves_LineInv (g g' : Gpu) (c : Nat) (hI : LineInv g)
    (h : g.run c = some g') : LineInv g' := by
  obtain ⟨ilo, ihi⟩ := hI
  simp only [Gpu.run] at h
  split at h
  · cases h
  · cases hm : g.mode <;> rw [hm] at h <;> rw [hm] at ilo <;>
      simp only [Mode.lineLo, LAST_LINE_TO_DRAW] at h ilo
    · -- HorizontalBlank
      split at h
      · split at h <;> cases h <;> constructor <;> (try dsimp only [LineInv, Mode.lineLo]) <;> omega
      · cases h
        constructor <;> (try dsimp only [LineInv, Mode.lineLo]) <;> omega
    · -- VerticalBlank
      split at h <;> cases h <;> constructor <;> (try dsimp only [LineInv, Mode.lineLo]) <;> omega
    · -- OAMScan
      split at h <;> cases h <;> constructor <;> (try dsimp only [LineInv, Mode.lineLo]) <;> omega
    · -- DrawPixel
      split at h
      · split at h
        next gd heq =>
          cases h
          obtain ⟨hm', hl', hc'⟩ := Gpu.draw_line_core _ _ heq
          have hline : gd.current_line = g.current_line := by simpa using hl'
          constructor <;> (try dsimp only [LineInv, Mode.lineLo]) <;> omega
        next heq => cases h
      · cases h
        constructor <;> (try dsimp only [LineInv, Mode.lineLo]) <;> omega

lemma Reachable.lineInv {g : Gpu} (h : Reachable g) : LineInv g := by
  induction h with
  | init => exact Gpu.new_LineInv
  | step g g' c _ _ hrun ih => exact Gpu.run_preserves_LineInv g g' c ih hrun
  | regs g g' _ hm hl _ ih =>
    obtain ⟨ilo, ihi⟩ := ih
    constructor
    · rw [hm, hl]
      exact ilo
    · rw [hl]
      exact ihi

/-! ## Emulator frame pacer (`src/emulator.rs`) -/

def ONE_SECOND_IN_MICROS : Nat := 1000000000
def ONE_SECOND_IN_CYCLES : Nat := 4194304
def ONE_FRAME_IN_CYCLES : Nat := 70224
def ONE_FRAME_IN_NS : Nat := ONE_FRAME_IN_CYCLES * ONE_SECOND_IN_MICROS / ONE_SECOND_IN_CYCLES

inductive EmulatorState
  | GetTime
  | RunMachine
  | WaitNextFrame
  | DisplayFrame
deriving DecidableEq

/-- The `Emulator` struct, restricted to its pacer fields (`soc` is the
emulated hardware, absent from the sources; see `Emulator.run`).
`emulator_frame_tick` is the recorded `Instant`, as nanoseconds. -/
structure Emulator where
  state : EmulatorState
  cycles_elapsed_in_frame : Nat
  emulator_frame_tick : Nat

/-- Modelled from the spec: `src/soc.rs` is not among the sources; per the
spec, `SoC.step() → cycles` runs the CPU one instruction and returns the
number of machine cycles consumed.  `Emulator::run` consumes one such value
per tick in the `RunMachine` state; it is passed to the embedding below as
the `soc_cycles` argument.  Likewise `Instant::now()` and
`Instant::elapsed()` are modelled by passing the current monotonic time
`now` in nanoseconds, with `elapsed = now - emulator_frame_tick`. -/
abbrev SocStepCycles : Type := Nat

/-- `Emulator::run(&mut self)`: one tick of the four-state pacer. -/
def Emulator.run (e : Emulator) (now : Nat) (soc_cycles : SocStepCycles) : Emulator :=
  match e.state with
  | EmulatorState.GetTime =>
    { e with emulator_frame_tick := now, state := EmulatorState.RunMachine }
  | EmulatorState.RunMachine =>
    let acc := e.cycles_elapsed_in_frame + soc_cycles
    if ONE_FRAME_IN_CYCLES ≤ acc then
      { e with cycles_elapsed_in_frame := 0, state := EmulatorState.WaitNextFrame }
    else
      { e with cycles_elapsed_in_frame := acc }
  | EmulatorState.WaitNextFrame =>
    if ONE_FRAME_IN_NS ≤ now - e.emulator_frame_tick then
      { e with state := EmulatorState.DisplayFrame }
    else
      e
  | EmulatorState.DisplayFrame =>
    { e with state := EmulatorState.GetTime }

/-- `Emulator::frame_ready(&self)`. -/
def Emulator.frame_ready (e : Emulator) : Bool :=
  if e.state = EmulatorState.DisplayFrame then true else false

/-! ## Spec-side definition for the `$8800` tile addressing (claim C7) -/

/-- The specification formula for `$8800` addressing: base `0x1000` plus a
**signed** 8-bit tile id times 16, plus the in-tile row offset. -/
def tile_data_addr_spec (t r : Nat) : Nat :=
  (0x1000 + (if t < 128 then (t : Int) else (t : Int) - 256) * 16 + (r : Int)).toNat

/-! ## VRAM write sequences (claim C10) -/

/-- Apply a sequence of `(offset, data)` VRAM writes in order. -/
def Gpu.apply_writes (g : Gpu) (ws : List (Nat × Nat)) : Gpu :=
  ws.foldl (fun acc w => acc.write_vram w.1 w.2) g

/-- The data of the last write at offset `a` in the sequence, if any. -/
def last_write_at (ws : List (Nat × Nat)) (a : Nat) : Option Nat :=
  ws.foldl (fun r w => if w.1 = a then some w.2 else r) Option.none

/-! ## Concrete states and cycle sequences used by the claims -/

/-- A sequence of 451 `Gpu::run` cycle arguments (each a legal `u8`)
totaling exactly 70224 cycles: the opening `HorizontalBlank` tail of line
0, then `OAMScan`/`DrawPixel`/`HorizontalBlank` for lines 1–143, the
single 4560-cycle `VerticalBlank` block fed 240 cycles at a time, and the
`OAMScan`/`DrawPixel` phases of the next frame's line 1. -/
def frameSeq : List Nat :=
  [204] ++ (List.replicate 143 [80, 172, 204]).flatten ++ List.replicate 19 240 ++ [80, 172]

/-- The test state of `gpu_tests::test_draw_line`: background enabled,
`$8000` tile-data addressing, tile map at `0x9800`, `current_line = 9`,
tile data `0x80` at `0x0200/0x0201/0x0210/0x0211`, tile-map entries
`0x20`/`0x21` at `0x1820`/`0x1821`. -/
def gTestDrawLine : Gpu :=
  ((((((({ Gpu.new with background_display_enabled := true,
                        background_tile_data_area := true,
                        background_tile_map_area := TileMapArea.X9800,
                        current_line := 9 }).write_vram 0x0200 0x80).write_vram 0x0201 0x80).write_vram 0x0210 0x80).write_vram 0x0211 0x80).write_vram 0x1820 0x20).write_vram 0x1821 0x21)

/-- A background-enabled state on line 1 with all-zero VRAM. -/
def gLine1 : Gpu :=
  { Gpu.new with background_display_enabled := true, current_line := 1 }

/-- The state after `Gpu::new().run(204)`: line 1, `OAMScan`. -/
def gOAM : Gpu :=
  { Gpu.new with cycles := 0, current_line := 1, mode := Mode.OAMScan }

/-- The state after `Gpu::new().run(204)` then `.run(80)`: line 1,
`DrawPixel`. -/
def gDP : Gpu :=
  { gOAM with cycles := 0, mode := Mode.DrawPixel }

/-! ## Claim theorems -/

set_option maxRecDepth 100000 in
/-- C1: refuted on the code.  The 451-call sequence `frameSeq` consists of
legal `u8` cycle arguments totaling exactly 70224 cycles, yet running it
from the initial GPU state leaves `current_line = 1` (not 0) and mode
`HorizontalBlank`: the source's `VerticalBlank` exit sets
`current_line = 1` after a single 4560-cycle block, so the machine is not
periodic with period 70224 from the initial state. -/
theorem c1_frame_cycle_trace :
    frameSeq.sum = 70224 ∧ frameSeq.all (fun c => c ≤ 255) = true ∧
    (Gpu.new.runList frameSeq).map Gpu.current_line = some 1 ∧
    (Gpu.new.runList frameSeq).map Gpu.mode = some Mode.HorizontalBlank := by
  refine ⟨by decide, by decide, ?_, ?_⟩ <;> rfl

/-- C2: refuted on the code.  In `HorizontalBlank` with the cycle budget
met and `current_line = 143` (not below 143), `Gpu::run` enters
`VerticalBlank` but leaves `current_line` at 143 — it never sets it to
144 — and requests no interrupt (the function has no interrupt-request
path at all, even with the STAT VBlank-interrupt enable bit set). -/
theorem c2_hblank_exit_at_line_143 :
    (Gpu.run { Gpu.new with current_line := 143, vblank_interrupt_enabled := true } 204).map
      (fun g => (g.current_line, g.mode)) = some (143, Mode.VerticalBlank) := rfl

/-- C5, counterexample: `GpuInterruptRequest::add` is not commutative:
joining `Both` into `VBlank` leaves `VBlank`, while joining `VBlank` into
`Both` leaves `Both`. -/
theorem c5_add_not_commutative :
    GpuInterruptRequest.add GpuInterruptRequest.VBlank GpuInterruptRequest.Both =
        GpuInterruptRequest.VBlank ∧
    GpuInterruptRequest.add GpuInterruptRequest.Both GpuInterruptRequest.VBlank =
        GpuInterruptRequest.Both ∧
    GpuInterruptRequest.VBlank ≠ GpuInterruptRequest.Both := by
  exact ⟨rfl, rfl, by decide⟩

/-- C5, amended: `GpuInterruptRequest.add` is idempotent, has `None` as a
two-sided identity, and joins `VBlank` with `LCDStat` to `Both` in either
order; but it is not commutative (see the counterexample): when the left
operand is `Both` and the right is `VBlank` or `LCDStat` the result is
`Both`, while in the mirrored order the left operand is kept. -/
theorem c5_add_idempotent_identity_join :
    (∀ a : GpuInterruptRequest, a.add a = a) ∧
    (∀ a : GpuInterruptRequest, GpuInterruptRequest.None.add a = a) ∧
    (∀ a : GpuInterruptRequest, a.add GpuInterruptRequest.None = a) ∧
    GpuInterruptRequest.VBlank.add GpuInterruptRequest.LCDStat = GpuInterruptRequest.Both ∧
    GpuInterruptRequest.LCDStat.add GpuInterruptRequest.VBlank = GpuInterruptRequest.Both := by
  refine ⟨fun a => ?_, fun a => ?_, fun a => ?_, rfl, rfl⟩ <;> cases a <;> rfl

set_option maxRecDepth 100000 in
/-- C8: the `test_draw_line` scenario.  From the initial GPU state with
background enabled, `$8000` tile-data mode, tile map `0x9800`, the default
palette, `current_line = 9`, VRAM `0x80` at `0x0200/0x0201/0x0210/0x0211`
and tile-map entries `0x20` at `0x1820`, `0x21` at `0x1821`, one
`draw_line` call makes `frame_buffer[0x0500]` and `frame_buffer[0x0508]`
equal to Black (0). -/
theorem c8_test_draw_line :
    (gTestDrawLine.draw_line).map (fun g => (g.frame_buffer 0x0500, g.frame_buffer 0x0508)) =
      some (PixelColor.BLACK.val, PixelColor.BLACK.val) := rfl

/-- C7: with `$8800` addressing (`background_tile_data_area = false`), the
two bytes fetched by `get_tile_data` for unsigned tile id `t < 256` and
even in-tile row offset `r ≤ 14` are the VRAM bytes at
`0x1000 + signed(t) * 16 + r` and the following offset, where `signed`
reinterprets `t` as a signed 8-bit value: the code's
`< 0x0800`-conditional base is equal to the spec's signed-base formula. -/
theorem c7_signed_tile_addressing (g : Gpu) (hmode : g.background_tile_data_area = false)
    (t r : Nat) (ht : t < 256) (hr : r ≤ 14) (hr2 : r % 2 = 0) :
    g.get_tile_data (t * TILE_SIZE_IN_BYTES) r =
      (g.read_vram (tile_data_addr_spec t r + 1), g.read_vram (tile_data_addr_spec t r)) := by
  simp only [Gpu.get_tile_data, hmode, Bool.false_eq_true, if_false]
  by_cases hlt : t < 128
  · have haddr : t * TILE_SIZE_IN_BYTES + r < 0x0800 := by
      simp only [TILE_SIZE_IN_BYTES]
      omega
    rw [if_pos haddr]
    have hspec : tile_data_addr_spec t r = 0x1000 + t * TILE_SIZE_IN_BYTES + r := by
      simp only [tile_data_addr_spec, if_pos hlt, TILE_SIZE_IN_BYTES]
      omega
    rw [hspec]
  · have haddr : ¬ (t * TILE_SIZE_IN_BYTES + r < 0x0800) := by
      simp only [TILE_SIZE_IN_BYTES]
      omega
    rw [if_neg haddr]
    have hspec : tile_data_addr_spec t r = t * TILE_SIZE_IN_BYTES + r := by
      simp only [tile_data_addr_spec, if_neg hlt, TILE_SIZE_IN_BYTES]
      omega
    rw [hspec]

/-- C7, witness: the theorem applied to the initial GPU state (which has
`$8800` addressing) at tile id 200 and row offset 4. -/
theorem c7_signed_tile_addressing_witness :
    Gpu.new.get_tile_data (200 * TILE_SIZE_IN_BYTES) 4 =
      (Gpu.new.read_vram (tile_data_addr_spec 200 4 + 1),
       Gpu.new.read_vram (tile_data_addr_spec 200 4)) :=
  c7_signed_tile_addressing Gpu.new rfl 200 4 (by decide) (by decide) (by decide)

set_option maxRecDepth 100000 in
/-- C3, counterexample: with background enabled, all-zero VRAM and
`current_line = 1`, `draw_line` leaves `frame_buffer[1*160 + 0]` at 0,
while the palette lookup of the pixel value decoded for row
`y = current_line` and column 0 is 255 (White): the row written is not
`current_line`. -/
theorem c3_row_is_not_current_line :
    (gLine1.draw_line).map (fun g => g.frame_buffer (1 * SCREEN_WIDTH + 0)) = some 0 ∧
    gLine1.get_bg_pixel_color_from_palette (gLine1.bg_pixel_value 1 0) = 255 ∧
    (0 : Nat) ≠ 255 := by
  exact ⟨rfl, rfl, by decide⟩

/-- C3, amended: for every call to `draw_line` with the background layer
enabled and `1 ≤ current_line ≤ 144`, the row written is
`y = current_line - 1`: for each visible column `x ∈ [0, 160)` the pixel
stored is `frame_buffer[(current_line - 1)*160 + x] = BGP[v]`, where `v`
is the 2-bit pixel value decoded from the tile data for that column. -/
theorem c3_draw_line_row (g : Gpu) (hbg : g.background_display_enabled = true)
    (h1 : 1 ≤ g.current_line) (h2 : g.current_line ≤ 144) (x : Nat) (hx : x < SCREEN_WIDTH) :
    ∃ g', g.draw_line = some g' ∧
      g'.frame_buffer ((g.current_line - 1) * SCREEN_WIDTH + x) =
        g.get_bg_pixel_color_from_palette (g.bg_pixel_value (g.current_line - 1) x) := by
  refine ⟨_, g.draw_line_eq hbg h1 h2, ?_⟩
  simp only [SCREEN_WIDTH] at hx ⊢
  dsimp only [Gpu.rowPaint]
  rw [if_pos (by omega)]
  rw [show (g.current_line - 1) * 160 + x - (g.current_line - 1) * 160 = x from by omega]
  rfl

/-- C3, witness: the amended theorem applied to the `test_draw_line` state
(`current_line = 9`) at column 0. -/
theorem c3_draw_line_row_witness :
    ∃ g', gTestDrawLine.draw_line = some g' ∧
      g'.frame_buffer ((gTestDrawLine.current_line - 1) * SCREEN_WIDTH + 0) =
        gTestDrawLine.get_bg_pixel_color_from_palette
          (gTestDrawLine.bg_pixel_value (gTestDrawLine.current_line - 1) 0) :=
  c3_draw_line_row gTestDrawLine rfl (by decide) (by decide) 0 (by decide)

/-- C4, counterexample: one `run` call from `HorizontalBlank` with counter
100 and increment 255 reaches `OAMScan` with residual 151, which is not
below the current (`OAMScan`) mode's budget of 80 — the code performs at
most one transition per call and does not keep processing while the budget
of the new mode is met. -/
theorem c4_residual_not_below_budget :
    (Gpu.run { Gpu.new with cycles := 100 } 255).map (fun g => (g.mode, g.cycles)) =
      some (Mode.OAMScan, 151) ∧ Mode.OAMScan.budget ≤ 151 := by
  exact ⟨rfl, by decide⟩

/-- C4, amended: one call to `Gpu::run(c)` adds `c` to the cycle counter
and performs at most one mode transition: if the accumulated counter is
below the starting mode's budget, the mode is unchanged and the counter
keeps the accumulated value; otherwise exactly one transition occurs and
the residual counter is the accumulated value modulo the exited mode's
budget, hence below the exited mode's budget (though possibly at or above
the new mode's budget). -/
theorem c4_run_single_transition (g : Gpu) (c : Nat) (g' : Gpu) (h : g.run c = some g') :
    (g.cycles + c < g.mode.budget → g'.mode = g.mode ∧ g'.cycles = g.cycles + c) ∧
    (g.mode.budget ≤ g.cycles + c →
      g'.mode ≠ g.mode ∧ g'.cycles = (g.cycles + c) % g.mode.budget ∧
        g'.cycles < g.mode.budget) := by
  constructor
  · intro hlt
    rw [g.run_no_transition c hlt] at h
    cases h
    exact ⟨rfl, rfl⟩
  · intro hge
    exact g.run_transition c g' hge h

/-- C4, witness: the amended theorem applied to the initial state with
increment 10: no transition, counter 10. -/
theorem c4_run_single_transition_witness :
    ({ Gpu.new with cycles := 10 } : Gpu).mode = Gpu.new.mode ∧
    ({ Gpu.new with cycles := 10 } : Gpu).cycles = Gpu.new.cycles + 10 :=
  (c4_run_single_transition Gpu.new 10 { Gpu.new with cycles := 10 } rfl).1 (by decide)

/-- C6: the pacer steps GetTime → RunMachine → WaitNextFrame →
DisplayFrame → GetTime.  In `RunMachine`, when `cycles_elapsed_in_frame`
reaches 70224 it is zeroed and the state becomes `WaitNextFrame`;
`WaitNextFrame` moves to `DisplayFrame` exactly when at least 16,742,706
ns have elapsed since the `GetTime` timestamp; the next tick returns to
`GetTime`, so `frame_ready()` — true iff the state is `DisplayFrame` — is
true for exactly one tick per frame. -/
theorem c6_pacer (e : Emulator) (now : Nat) (c : SocStepCycles) :
    (e.state = EmulatorState.GetTime →
      e.run now c = { e with emulator_frame_tick := now, state := EmulatorState.RunMachine }) ∧
    (e.state = EmulatorState.RunMachine →
      (ONE_FRAME_IN_CYCLES ≤ e.cycles_elapsed_in_frame + c →
        e.run now c = { e with cycles_elapsed_in_frame := 0,
                               state := EmulatorState.WaitNextFrame }) ∧
      (e.cycles_elapsed_in_frame + c < ONE_FRAME_IN_CYCLES →
        e.run now c = { e with cycles_elapsed_in_frame := e.cycles_elapsed_in_frame + c })) ∧
    (e.state = EmulatorState.WaitNextFrame →
      ((e.run now c).state = EmulatorState.DisplayFrame ↔
        ONE_FRAME_IN_NS ≤ now - e.emulator_frame_tick)) ∧
    (e.state = EmulatorState.DisplayFrame →
      e.run now c = { e with state := EmulatorState.GetTime } ∧
      (e.run now c).frame_ready = false) ∧
    (e.frame_ready = true ↔ e.state = EmulatorState.DisplayFrame) ∧
    ONE_FRAME_IN_NS = 16742706 := by
  obtain ⟨st, acc, tick⟩ := e
  cases st
  · refine ⟨fun _ => rfl, ?_, ?_, ?_, ?_, by decide⟩
    · intro h
      simp at h
    · intro h
      simp at h
    · intro h
      simp at h
    · constructor
      · intro h
        simp [Emulator.frame_ready] at h
      · intro h
        simp at h
  · refine ⟨?_, fun _ => ⟨fun hge => ?_, fun hlt => ?_⟩, ?_, ?_, ?_, by decide⟩
    · intro h
      simp at h
    · dsimp only at hge
      dsimp only [Emulator.run]
      rw [if_pos hge]
    · dsimp only at hlt
      dsimp only [Emulator.run]
      rw [if_neg (by omega)]
    · intro h
      simp at h
    · intro h
      simp at h
    · constructor
      · intro h
        simp [Emulator.frame_ready] at h
      · intro h
        simp at h
  · refine ⟨?_, ?_, fun _ => ?_, ?_, ?_, by decide⟩
    · intro h
      simp at h
    · intro h
      simp at h
    · dsimp only [Emulator.run]
      by_cases hd : ONE_FRAME_IN_NS ≤ now - tick
      · rw [if_pos hd]
        simp [hd]
      · rw [if_neg hd]
        simp [hd]
    · intro h
      simp at h
    · constructor
      · intro h
        simp [Emulator.frame_ready] at h
      · intro h
        simp at h
  · refine ⟨?_, ?_, ?_, fun _ => ⟨rfl, rfl⟩, ?_, by decide⟩
    · intro h
      simp at h
    · intro h
      simp at h
    · intro h
      simp at h
    · constructor
      · intro _
        rfl
      · intro _
        rfl

/-- C6, witness: one tick from `GetTime` at time 5 ns records the
timestamp and moves to `RunMachine`; `ONE_FRAME_IN_NS` is 16,742,706. -/
theorem c6_pacer_witness :
    Emulator.run ⟨EmulatorState.GetTime, 0, 0⟩ 5 3 = ⟨EmulatorState.RunMachine, 0, 5⟩ ∧
    ONE_FRAME_IN_NS = 16742706 := by
  have h := c6_pacer ⟨EmulatorState.GetTime, 0, 0⟩ 5 3
  exact ⟨h.1 rfl, h.2.2.2.2.2⟩

/-- C9: with the background enabled and `1 ≤ current_line ≤ 144`,
`draw_line` repaints exactly row `current_line - 1` (columns 0–159) of the
frame buffer; it is total and in bounds exactly when
`1 ≤ current_line ≤ 144` (at `current_line = 0` the row
computation `current_line - 1` underflows, and from `current_line = 145`
on the `frame_buffer` write is out of bounds); and in every state
reachable from `Gpu::new` through `Gpu::run` (allowing arbitrary MMIO
register writes outside the mode machine core) in which `run` calls
`draw_line` — i.e. `mode = DrawPixel` — `current_line` lies in `[1, 143]`. -/
theorem c9_draw_line_safety :
    (∀ g : Gpu, g.background_display_enabled = true → 1 ≤ g.current_line →
      g.current_line ≤ 144 →
      g.draw_line = some { g with frame_buffer := g.rowPaint (g.current_line - 1) 160 }) ∧
    (∀ g : Gpu, g.background_display_enabled = true →
      ((g.draw_line).isSome = true ↔ (1 ≤ g.current_line ∧ g.current_line ≤ 144))) ∧
    (∀ g : Gpu, Reachable g → g.mode = Mode.DrawPixel →
      1 ≤ g.current_line ∧ g.current_line ≤ 143) := by
  refine ⟨fun g hbg h1 h2 => g.draw_line_eq hbg h1 h2, ?_, ?_⟩
  · exact fun g hbg => g.draw_line_isSome_iff hbg
  · intro g hr hm
    obtain ⟨ilo, ihi⟩ := hr.lineInv
    rw [hm] at ilo
    simp only [Mode.lineLo] at ilo
    exact ⟨ilo, ihi⟩

/-- C9, witness: `draw_line` succeeds on the background-enabled line-1
state, and the reachable `DrawPixel` state after `run(204)`, `run(80)`
from `Gpu::new` has its line in `[1, 143]`. -/
theorem c9_draw_line_safety_witness :
    gLine1.draw_line = some { gLine1 with frame_buffer := gLine1.rowPaint (gLine1.current_line - 1) 160 } ∧
    (gLine1.draw_line).isSome = true ∧ (1 ≤ gDP.current_line ∧ gDP.current_line ≤ 143) := by
  refine ⟨c9_draw_line_safety.1 gLine1 rfl (by decide) (by decide), ?_, ?_⟩
  · exact (c9_draw_line_safety.2.1 gLine1 rfl).mpr ⟨by decide, by decide⟩
  · exact c9_draw_line_safety.2.2 gDP
      (Reachable.step gOAM gDP 80
        (Reachable.step Gpu.new gOAM 204 Reachable.init (by decide) rfl) (by decide) rfl) rfl

/-- C10: the VRAM write-then-read round trip.  For every offset
`a < 0x2000` and byte `d`, after any sequence of in-range VRAM writes
whose last write at offset `a` stored `d`, `read_vram(a)` returns `d`. -/
theorem c10_vram_round_trip (g : Gpu) (ws : List (Nat × Nat)) (a d : Nat)
    (ha : a < VRAM_SIZE) (hd : d < 256) (hws : ∀ w ∈ ws, w.1 < VRAM_SIZE)
    (hlast : last_write_at ws a = some d) :
    (g.apply_writes ws).read_vram a = d := by
  induction ws using List.reverseRecOn with
  | nil => cases hlast
  | append_singleton ws w ih =>
    have happ : g.apply_writes (ws ++ [w]) = (g.apply_writes ws).write_vram w.1 w.2 := by
      simp [Gpu.apply_writes, List.foldl_append]
    have hlast' : last_write_at (ws ++ [w]) a =
        if w.1 = a then some w.2 else last_write_at ws a := by
      simp [last_write_at, List.foldl_append]
    rw [hlast'] at hlast
    rw [happ]
    by_cases hw : w.1 = a
    · rw [if_pos hw] at hlast
      cases hlast
      subst hw
      simp [Gpu.read_vram, Gpu.write_vram, Function.update_same]
      omega
    · rw [if_neg hw] at hlast
      have hskip : ((g.apply_writes ws).write_vram w.1 w.2).read_vram a =
          (g.apply_writes ws).read_vram a := by
        simp [Gpu.read_vram, Gpu.write_vram,
          Function.update_noteq (fun h => hw h.symm)]
      rw [hskip]
      exact ih (fun v hv => hws v (by simp [hv])) hlast

/-- C10, witness: writing `0xAA` then `0xBB` at offset 1 (with an
interleaved write at offset 2) reads back `0xBB` at offset 1. -/
theorem c10_vram_round_trip_witness :
    (Gpu.new.apply_writes [(1, 0xAA), (2, 0x55), (1, 0xBB)]).read_vram 1 = 0xBB :=
  c10_vram_round_trip Gpu.new [(1, 0xAA), (2, 0x55), (1, 0xBB)] 1 0xBB (by decide) (by decide)
    (by decide) rfl

end Rustboy
